import Mathlib

/-!
Verification development for the MAI-UI desktop-agent action-prediction
protocol (`mai_desktop_navigation_agent.py`): the response parser
(`parse_tagged_text`, `parse_action_to_structure_output`), the coordinate
codec, the duplicate-action guard and the prediction cycle, shallowly
embedded over exact rational arithmetic and character lists.
-/

set_option allowUnsafeReducibility true
attribute [semireducible] Rat.add Rat.mul Rat.sub Rat.inv Rat.neg Rat.ofScientific
set_option maxRecDepth 100000

namespace MAIUI

/-- Text is modelled as a list of characters (a Python `str`). -/
abbrev Str := List Char

/-- Converts a Lean string literal to the character-list representation. -/
def s2l (s : String) : Str := s.data

/-- Whitespace stripped by Python `str.strip()` (space, tab, newline,
carriage return, vertical tab, form feed). -/
def pyIsWs (c : Char) : Bool :=
  c = ' ' || c = '\t' || c = '\n' || c = '\r' || c = '\x0b' || c = '\x0c'

/-- Python `s.strip()`: removes leading and trailing whitespace. -/
def pyStripWs (l : Str) : Str :=
  ((l.dropWhile pyIsWs).reverse.dropWhile pyIsWs).reverse

/-- Python `s.strip('"')`: removes all leading and trailing double quotes. -/
def pyStripQuote (l : Str) : Str :=
  ((l.dropWhile (· = '"')).reverse.dropWhile (· = '"')).reverse

/-- The composite `.strip().strip('"')` applied to both regex groups in
`parse_tagged_text`. -/
def pyStrip2 (l : Str) : Str := pyStripQuote (pyStripWs l)

/-- Python `int()` truncation toward zero on an exact rational. -/
def pyInt (q : ℚ) : ℤ := if 0 ≤ q then ⌊q⌋ else ⌈q⌉

/-- Python `str.lower()` (ASCII case folding suffices here). -/
def pyLower (l : Str) : Str := l.map Char.toLower

/-- Exceptions the embedded Python code can raise. -/
inductive PyError where
  | valueError (msg : Str)
  | typeError (msg : Str)
  | keyError (msg : Str)
  | attributeError (msg : Str)
  deriving DecidableEq

/-- JSON-like values: the result space of Python `json.loads` restricted to
the types the agent exchanges (numbers carried as exact rationals). -/
inductive JVal where
  | null
  | bool (b : Bool)
  | num (q : ℚ)
  | str (s : Str)
  | arr (xs : List JVal)
  | obj (kvs : List (Str × JVal))

mutual

/-- Python `==` on JSON-like values (structural equality). -/
def jeq : JVal → JVal → Bool
  | .null, .null => true
  | .bool a, .bool b => a = b
  | .num a, .num b => a = b
  | .str a, .str b => a = b
  | .arr a, .arr b => jeqArr a b
  | .obj a, .obj b => jeqObj a b
  | _, _ => false

/-- Elementwise Python `==` on lists. -/
def jeqArr : List JVal → List JVal → Bool
  | [], [] => true
  | a :: as, b :: bs => jeq a b && jeqArr as bs
  | _, _ => false

/-- Entrywise Python `==` on dicts (order-sensitive, adequate here). -/
def jeqObj : List (Str × JVal) → List (Str × JVal) → Bool
  | [], [] => true
  | (k1, v1) :: as, (k2, v2) :: bs => k1 = k2 && jeq v1 v2 && jeqObj as bs
  | _, _ => false

end

/-- Looks a key up in a dict's entry list (keys are unique: insertion
replaces, mirroring Python dict semantics). -/
def objGet? (kvs : List (Str × JVal)) (k : Str) : Option JVal :=
  (kvs.find? (fun e => e.1 = k)).map (·.2)

/-- Python `d[k] = v`: replaces the value in place if the key exists,
appends otherwise. -/
def objSet (kvs : List (Str × JVal)) (k : Str) (v : JVal) : List (Str × JVal) :=
  match kvs with
  | [] => [(k, v)]
  | (k1, v1) :: rest =>
    if k1 = k then (k1, v) :: rest else (k1, v1) :: objSet rest k v

/-- Python truthiness of a JSON-like value. -/
def pyTruthy : JVal → Bool
  | .null => false
  | .bool b => b
  | .num q => q ≠ 0
  | .str s => s ≠ []
  | .arr xs => !xs.isEmpty
  | .obj kvs => !kvs.isEmpty

/-- Python `key in container` for the container shapes `json.loads` can
produce: key lookup on dicts, substring test on strings, membership on
lists; `TypeError` otherwise. -/
def pyContainsKey (container : JVal) (k : Str) : Except PyError Bool :=
  match container with
  | .obj kvs => .ok (kvs.any (fun e => e.1 = k))
  | .arr xs => .ok (xs.any (fun v => jeq v (.str k)))
  | _ => .error (.typeError (s2l "argument is not a container"))

/-- Python `d.get(k, default)`: `AttributeError` when the receiver is not a
dict. -/
def pyGet (v : JVal) (k : Str) (d : JVal) : Except PyError JVal :=
  match v with
  | .obj kvs => .ok ((objGet? kvs k).getD d)
  | _ => .error (.attributeError (s2l "object has no attribute get"))

/-- Python `d[k]` on a dict: `KeyError` when absent, `TypeError` when the
receiver is not a dict. -/
def pyIndexKey (v : JVal) (k : Str) : Except PyError JVal :=
  match v with
  | .obj kvs =>
    match objGet? kvs k with
    | some x => .ok x
    | none => .error (.keyError k)
  | _ => .error (.typeError (s2l "value is not subscriptable by key"))

/-- Python `len()`: defined on lists, strings and dicts, `TypeError`
otherwise. -/
def pyLen (v : JVal) : Except PyError Nat :=
  match v with
  | .arr xs => .ok xs.length
  | .str s => .ok s.length
  | .obj kvs => .ok kvs.length
  | _ => .error (.typeError (s2l "object has no len"))

/-- Reads a JSON value as a number; models Python raising `TypeError` when
non-numeric values reach arithmetic or an order comparison with a number. -/
def toNum (v : JVal) : Except PyError ℚ :=
  match v with
  | .num q => .ok q
  | _ => .error (.typeError (s2l "value is not a number"))

/-! JSON parsing: a model of Python `json.loads` on the value space above.
Numbers are read exactly into `ℚ`; a malformed document yields `none`. -/

/-- Whitespace `json.loads` skips between tokens. -/
def jsonWs (c : Char) : Bool := c = ' ' || c = '\t' || c = '\n' || c = '\r'

/-- Skips JSON inter-token whitespace. -/
def skipWs (l : Str) : Str := l.dropWhile jsonWs

/-- Value of a hexadecimal digit, if any. -/
def hexVal (c : Char) : Option Nat :=
  if '0' ≤ c ∧ c ≤ '9' then some (c.toNat - 48)
  else if 'a' ≤ c ∧ c ≤ 'f' then some (c.toNat - 87)
  else if 'A' ≤ c ∧ c ≤ 'F' then some (c.toNat - 55)
  else none

/-- Parses the body of a JSON string after the opening quote, handling the
standard escapes; returns the decoded characters and the rest. -/
def jparseStr : Str → Option (Str × Str)
  | [] => none
  | '"' :: r => some ([], r)
  | '\\' :: 'u' :: h1 :: h2 :: h3 :: h4 :: r => do
    let a ← hexVal h1
    let b ← hexVal h2
    let c ← hexVal h3
    let d ← hexVal h4
    let (s, r1) ← jparseStr r
    pure (Char.ofNat (a * 4096 + b * 256 + c * 16 + d) :: s, r1)
  | '\\' :: e :: r => do
    let c ←
      if e = '"' then some '"'
      else if e = '\\' then some '\\'
      else if e = '/' then some '/'
      else if e = 'b' then some '\x08'
      else if e = 'f' then some '\x0c'
      else if e = 'n' then some '\n'
      else if e = 'r' then some '\r'
      else if e = 't' then some '\t'
      else none
    let (s, r1) ← jparseStr r
    pure (c :: s, r1)
  | c :: r => do
    let (s, r1) ← jparseStr r
    pure (c :: s, r1)

/-- Numeric value of a digit string. -/
def digitsVal (ds : Str) : ℕ := ds.foldl (fun a c => a * 10 + (c.toNat - 48)) 0

/-- Parses a JSON number (sign, integer part, optional fraction and
exponent) into an exact rational. -/
def jparseNum (l : Str) : Option (JVal × Str) := do
  let (neg, l1) := match l with | '-' :: r => (true, r) | _ => (false, l)
  let ds := l1.takeWhile Char.isDigit
  if ds = [] then none else
  let l2 := l1.dropWhile Char.isDigit
  let ipart : ℚ := (digitsVal ds : ℚ)
  let (q1, l3) ←
    match l2 with
    | '.' :: r =>
      let fs := r.takeWhile Char.isDigit
      if fs = [] then none
      else some (ipart + (digitsVal fs : ℚ) / ((10 : ℚ) ^ fs.length), r.dropWhile Char.isDigit)
    | _ => some (ipart, l2)
  let (q2, l4) ←
    match l3 with
    | 'e' :: r | 'E' :: r =>
      let (eneg, r1) := match r with
        | '-' :: r2 => (true, r2)
        | '+' :: r2 => (false, r2)
        | _ => (false, r)
      let es := r1.takeWhile Char.isDigit
      if es = [] then none
      else
        let e := digitsVal es
        some (if eneg then q1 / (10 : ℚ) ^ e else q1 * (10 : ℚ) ^ e, r1.dropWhile Char.isDigit)
    | _ => some (q1, l3)
  pure (.num (if neg then -q2 else q2), l4)

mutual

/-- Parses one JSON value at the head of the input (fuel-indexed to make the
recursion structural). -/
def jparseVal : Nat → Str → Option (JVal × Str)
  | 0, _ => none
  | _ + 1, [] => none
  | fuel + 1, c :: rest =>
    if c = 'n' then
      match rest with
      | 'u' :: 'l' :: 'l' :: r => some (.null, r)
      | _ => none
    else if c = 't' then
      match rest with
      | 'r' :: 'u' :: 'e' :: r => some (.bool true, r)
      | _ => none
    else if c = 'f' then
      match rest with
      | 'a' :: 'l' :: 's' :: 'e' :: r => some (.bool false, r)
      | _ => none
    else if c = '"' then
      (jparseStr rest).map (fun p => (.str p.1, p.2))
    else if c = '[' then
      match skipWs rest with
      | ']' :: r => some (.arr [], r)
      | r => jparseArr fuel r []
    else if c = '\x7b' then
      match skipWs rest with
      | '\x7d' :: r => some (.obj [], r)
      | r => jparseObj fuel r []
    else jparseNum (c :: rest)

/-- Parses the elements of a non-empty JSON array, the input positioned at
the start of a value. -/
def jparseArr : Nat → Str → List JVal → Option (JVal × Str)
  | 0, _, _ => none
  | fuel + 1, l, acc => do
    let (v, r) ← jparseVal fuel l
    match skipWs r with
    | ',' :: r2 => jparseArr fuel (skipWs r2) (acc ++ [v])
    | ']' :: r2 => some (.arr (acc ++ [v]), r2)
    | _ => none

/-- Parses the entries of a non-empty JSON object, the input positioned at
the start of a key; a repeated key keeps the last value (dict semantics). -/
def jparseObj : Nat → Str → List (Str × JVal) → Option (JVal × Str)
  | 0, _, _ => none
  | fuel + 1, l, acc =>
    match skipWs l with
    | '"' :: r => do
      let (k, r1) ← jparseStr r
      match skipWs r1 with
      | ':' :: r2 => do
        let (v, r3) ← jparseVal fuel (skipWs r2)
        let acc := objSet acc k v
        match skipWs r3 with
        | ',' :: r4 => jparseObj fuel r4 acc
        | '\x7d' :: r4 => some (.obj acc, r4)
        | _ => none
      | _ => none
    | _ => none

end

/-- Python `json.loads`: one value, optionally surrounded by whitespace;
anything else is a parse failure. -/
def jparse (s : Str) : Option JVal :=
  match jparseVal (2 * s.length + 2) (skipWs s) with
  | some (v, r) => if skipWs r = [] then some v else none
  | none => none

/-! Substring search: the leftmost-match semantics of the single regex
`<thinking>(.*?)</thinking>.*?</?invoke>(.*?)</invoke>` used by
`parse_tagged_text`, decomposed into first-occurrence searches. -/

/-- Index of the first occurrence of `pat` in the text, if any. -/
def findSub (pat : Str) : Str → Option Nat
  | [] => if pat.isPrefixOf [] then some 0 else none
  | c :: rest =>
    if pat.isPrefixOf (c :: rest) then some 0
    else (findSub pat rest).map (· + 1)

/-- Python `pat in text`. -/
def containsSub (pat text : Str) : Bool := (findSub pat text).isSome

/-- Python `text.replace(pat, rep)` for a non-empty `pat` (fuel-indexed). -/
def replaceAllAux (pat rep : Str) : Nat → Str → Str
  | _, [] => []
  | 0, l => l
  | fuel + 1, c :: rest =>
    if pat.isPrefixOf (c :: rest) then
      rep ++ replaceAllAux pat rep fuel ((c :: rest).drop pat.length)
    else c :: replaceAllAux pat rep fuel rest

/-- Python `text.replace(pat, rep)`. -/
def replaceAll (pat rep l : Str) : Str := replaceAllAux pat rep l.length l

/-- The literal `<thinking>` tag. -/
def thinkOpen : Str := '<' :: 't' :: 'h' :: 'i' :: 'n' :: 'k' :: 'i' :: 'n' :: 'g' :: '>' :: []

/-- The literal `</thinking>` tag. -/
def thinkClose : Str := '<' :: '/' :: 't' :: 'h' :: 'i' :: 'n' :: 'k' :: 'i' :: 'n' :: 'g' :: '>' :: []

/-- The literal `</think>` end marker emitted by "thinking" model variants. -/
def thinkCloseAlt : Str := '<' :: '/' :: 't' :: 'h' :: 'i' :: 'n' :: 'k' :: '>' :: []

/-- The literal `<invoke>` tag. -/
def invokeOpen : Str := '<' :: 'i' :: 'n' :: 'v' :: 'o' :: 'k' :: 'e' :: '>' :: []

/-- The literal `</invoke>` tag. -/
def invokeClose : Str := '<' :: '/' :: 'i' :: 'n' :: 'v' :: 'o' :: 'k' :: 'e' :: '>' :: []

/-- Position and length of the first substring matching `</?invoke>`, i.e.
the first occurrence of either `</invoke>` or `<invoke>`. -/
def findMarker : Str → Option (Nat × Nat)
  | [] => none
  | c :: rest =>
    if invokeClose.isPrefixOf (c :: rest) then some (0, 9)
    else if invokeOpen.isPrefixOf (c :: rest) then some (0, 8)
    else (findMarker rest).map (fun p => (p.1 + 1, p.2))

/-! The response parser: `parse_tagged_text` and
`parse_action_to_structure_output` from `mai_desktop_navigation_agent.py`. -/

/-- The compatibility shim at the top of `parse_tagged_text`: when the text
contains `</think>` but no `</thinking>`, rewrite the former to the latter
and prepend an opening `<thinking>` tag. -/
def preprocess (text : Str) : Str :=
  if containsSub thinkCloseAlt text ∧ ¬ containsSub thinkClose text then
    thinkOpen ++ replaceAll thinkCloseAlt thinkClose text
  else text

/-- The single regex search
`<thinking>(.*?)</thinking>.*?</?invoke>(.*?)</invoke>` (with `re.DOTALL`):
the leftmost match takes the first `<thinking>`, the first `</thinking>`
after it, the first `<invoke>`-or-`</invoke>` marker after that and the
first `</invoke>` after the marker; returns the two groups. -/
def extractTagged (text : Str) : Option (Str × Str) :=
  match findSub thinkOpen text with
  | none => none
  | some p =>
    let rest1 := text.drop (p + thinkOpen.length)
    match findSub thinkClose rest1 with
    | none => none
    | some q =>
      let g1 := rest1.take q
      let rest2 := rest1.drop (q + thinkClose.length)
      match findMarker rest2 with
      | none => none
      | some m =>
        let rest3 := rest2.drop (m.1 + m.2)
        match findSub invokeClose rest3 with
        | none => none
        | some s => some (g1, rest3.take s)

/-- The value of `result["tool_call"]` at the end of `parse_tagged_text`:
Python `None` when the regex did not match, the falsy empty string when the
matched group stripped to nothing, or the parsed JSON value. -/
inductive ToolCall where
  | pynone
  | emptyStr
  | json (v : JVal)

/-- Result record of `parse_tagged_text`. -/
structure Tagged where
  thinking : Option Str
  tool_call : ToolCall

/-- Embeds `parse_tagged_text`: the `</think>` shim, the regex match with
both groups stripped by `.strip().strip('"')`, then `json.loads` on a
truthy tool_call group, raising `ValueError` on invalid JSON. -/
def parse_tagged_text (text : Str) : Except PyError Tagged :=
  let text := preprocess text
  match extractTagged text with
  | none => .ok ⟨none, .pynone⟩
  | some (g1, g2) =>
    let th := pyStrip2 g1
    let tc := pyStrip2 g2
    if tc = [] then .ok ⟨some th, .emptyStr⟩
    else
      match jparse tc with
      | some v => .ok ⟨some th, .json v⟩
      | none => .error (.valueError (s2l "Invalid JSON in tool_call"))

/-- The constant `SCALE_FACTOR = 999`. -/
def SCALE_FACTOR : ℚ := 999

/-- The unwrapping step of `parse_action_to_structure_output`: take
`tool_call["arguments"]` when the key is present, the whole mapping when it
has an `"action"` key, and raise otherwise; membership on a Python `None`
tool_call raises `TypeError`. -/
def extractAction : ToolCall → Except PyError JVal
  | .pynone => .error (.typeError (s2l "argument of type NoneType is not iterable"))
  | .emptyStr => .error (.valueError (s2l "Invalid tool_call format"))
  | .json tc => do
    if ← pyContainsKey tc (s2l "arguments") then
      pyIndexKey tc (s2l "arguments")
    else if ← pyContainsKey tc (s2l "action") then
      pure tc
    else
      .error (.valueError (s2l "Invalid tool_call format"))

/-- The coordinate-codec step shared by the three coordinate fields: a
4-element box is collapsed to its center pair, any other arity than 2 or 4
raises `ValueError`. -/
def coordsToPair (coords : JVal) : Except PyError (ℚ × ℚ) := do
  let n ← pyLen coords
  if n = 2 then
    match coords with
    | .arr [x, y] => pure (← toNum x, ← toNum y)
    | _ => .error (.typeError (s2l "cannot unpack coordinate values"))
  else if n = 4 then
    match coords with
    | .arr [x1, y1, x2, y2] =>
      pure (((← toNum x1) + (← toNum x2)) / 2, ((← toNum y1) + (← toNum y2)) / 2)
    | _ => .error (.typeError (s2l "cannot unpack coordinate values"))
  else
    .error (.valueError (s2l "Invalid coordinate format: expected 2 or 4 values"))

/-- The normalization heuristic on a collapsed pair: divide both components
by `SCALE_FACTOR` when either exceeds 1, keep the pair otherwise. -/
def normPair (px py : ℚ) : ℚ × ℚ :=
  if px > 1 ∨ py > 1 then (px / SCALE_FACTOR, py / SCALE_FACTOR) else (px, py)

/-- One `if key in action: ...` block of
`parse_action_to_structure_output`: collapse, normalize and write back the
pair under `key`. -/
def normalizeCoordField (action : JVal) (key : Str) : Except PyError JVal := do
  if ← pyContainsKey action key then
    match action with
    | .obj kvs => do
      let coords := (objGet? kvs key).getD .null
      let (px, py) ← coordsToPair coords
      let (px, py) := normPair px py
      pure (.obj (objSet kvs key (.arr [.num px, .num py])))
    | _ => .error (.typeError (s2l "value is not subscriptable by key"))
  else
    pure action

/-- Embeds `parse_action_to_structure_output`: strip, tag parse, unwrap,
then the codec applied to `coordinate`, `start_coordinate` and
`end_coordinate`; returns the pair (thinking, action_json). -/
def parse_action_to_structure_output (text : Str) : Except PyError (Option Str × JVal) := do
  let text := pyStripWs text
  let results ← parse_tagged_text text
  let action ← extractAction results.tool_call
  let action ← normalizeCoordField action (s2l "coordinate")
  let action ← normalizeCoordField action (s2l "start_coordinate")
  let action ← normalizeCoordField action (s2l "end_coordinate")
  pure (results.thinking, action)

/-- The inner `convert_coord` of `mem2response`: scale a stored pair (or
box) back up by `SCALE_FACTOR` when its leading components are below the
1.5 heuristic threshold, truncate to ints otherwise; other arities pass
through unchanged. -/
def convert_coord (coord_list : List ℚ) : List ℚ :=
  match coord_list with
  | [x, y] =>
    if x < 3/2 ∧ y < 3/2 then
      [(pyInt (x * SCALE_FACTOR) : ℚ), (pyInt (y * SCALE_FACTOR) : ℚ)]
    else [(pyInt x : ℚ), (pyInt y : ℚ)]
  | [x1, y1, x2, y2] =>
    if x1 < 3/2 ∧ y1 < 3/2 then
      [(pyInt (x1 * SCALE_FACTOR) : ℚ), (pyInt (y1 * SCALE_FACTOR) : ℚ),
       (pyInt (x2 * SCALE_FACTOR) : ℚ), (pyInt (y2 * SCALE_FACTOR) : ℚ)]
    else [(pyInt x1 : ℚ), (pyInt y1 : ℚ), (pyInt x2 : ℚ), (pyInt y2 : ℚ)]
  | l => l

/-! The duplicate-action guard and the prediction cycle of
`MAIDesktopNavigationAgent.predict`. -/

/-- Modelled from the spec: one TrajectoryStep of the Trajectory Store
(`TrajStep` lives in `unified_memory.py`, which is not among the provided
sources); only the fields the prediction cycle constructs and reads are
kept — the screenshot and model identifiers are opaque to the protocol. -/
structure TrajStep where
  prediction : Str
  action : JVal
  conclusion : Str
  thought : Option Str
  step_index : Nat
  structured_action : JVal

/-- Modelled from the spec: the Trajectory Store (`self.traj_memory`) — the
ordered step log and the write-once task goal; `none` is Python `None`
before the first prediction cycle. -/
structure TrajMemory where
  task_goal : Option Str
  steps : List TrajStep

/-- Python truthiness of `self.traj_memory.task_goal`. -/
def goalTruthy : Option Str → Bool
  | none => false
  | some s => !s.isEmpty

/-- The neutral action substituted on duplicate detection:
`{"action": "wait", "duration": 2.0}`. -/
def waitAction : JVal :=
  .obj [(s2l "action", .str (s2l "wait")), (s2l "duration", .num 2)]

/-- The annotated prediction text substituted on duplicate detection:
`f"<thinking>{thinking}</thinking> ⛔ 重复动作被阻止"`. -/
def substPrediction (thinking : Option Str) : Str :=
  s2l "<thinking>" ++ (match thinking with | some s => s | none => s2l "None") ++
    s2l "</thinking> ⛔ 重复动作被阻止"

/-- The `is_duplicate` computation for two same-discriminator actions:
`click` compares unit coordinates (the float test `dist < 0.03` is the
exact test `dist² < 0.03²`), `type` requires equal non-empty texts,
`launch` compares lowercased texts, anything else is never a duplicate. -/
def checkDuplicate (lastAction actionJson ctype : JVal) : Except PyError Bool := do
  if jeq ctype (.str (s2l "click")) then
    let lastCoord ← pyGet lastAction (s2l "coordinate") (.arr [])
    let currCoord ← pyGet actionJson (s2l "coordinate") (.arr [])
    if (← pyLen lastCoord) = 2 ∧ (← pyLen currCoord) = 2 then
      match lastCoord, currCoord with
      | .arr [l0, l1], .arr [c0, c1] => do
        let lx ← toNum l0
        let ly ← toNum l1
        let cx ← toNum c0
        let cy ← toNum c1
        pure ((lx - cx) ^ 2 + (ly - cy) ^ 2 < (3/100) ^ 2)
      | _, _ => .error (.typeError (s2l "coordinate is not a pair of numbers"))
    else
      pure false
  else if jeq ctype (.str (s2l "type")) then
    let lastText ← pyGet lastAction (s2l "text") (.str [])
    let currText ← pyGet actionJson (s2l "text") (.str [])
    pure (jeq lastText currText && pyTruthy lastText)
  else if jeq ctype (.str (s2l "launch")) then
    let lastText ← pyGet lastAction (s2l "text") (.str [])
    let currText ← pyGet actionJson (s2l "text") (.str [])
    match lastText, currText with
    | .str a, .str b => pure (pyLower a = pyLower b)
    | _, _ => .error (.attributeError (s2l "object has no attribute lower"))
  else
    pure false

/-- The duplicate-action guard block of `predict`: when there is a previous
step whose (truthy) action shares the candidate's discriminator and
`checkDuplicate` fires, replace the action with `waitAction` and the
prediction with the annotated text; otherwise pass both through. -/
def applyGuard (steps : List TrajStep) (thinking : Option Str) (actionJson : JVal)
    (prediction : Str) : Except PyError (Str × JVal) := do
  match steps.getLast? with
  | none => pure (prediction, actionJson)
  | some lastStep =>
    let lastAction := lastStep.action
    let ctype ← pyGet actionJson (s2l "action") (.str [])
    if pyTruthy lastAction then
      let ltype ← pyGet lastAction (s2l "action") (.str [])
      if jeq ctype ltype then
        if ← checkDuplicate lastAction actionJson ctype then
          pure (substPrediction thinking, waitAction)
        else
          pure (prediction, actionJson)
      else
        pure (prediction, actionJson)
    else
      pure (prediction, actionJson)

/-- One attempt of the retry loop: strip the raw completion, parse it and
run the guard; any `PyError` along the way makes the attempt fail (it is
caught by the `except` clause of the loop). -/
def runAttempt (steps : List TrajStep) (raw : Str) :
    Except PyError (Str × Option Str × JVal) := do
  let prediction := pyStripWs raw
  let parsed ← parse_action_to_structure_output prediction
  let (prediction, actionJson) ← applyGuard steps parsed.1 parsed.2 prediction
  pure (prediction, parsed.1, actionJson)

/-- The retry loop (`for attempt in range(max_retries)`): the result of the
first attempt that neither raised in the client call (an `.error` entry of
`llmResults`) nor raised while parsing or guarding. -/
def firstSuccess (steps : List TrajStep) : List (Except Unit Str) → Option (Str × Option Str × JVal)
  | [] => none
  | .error _ :: rest => firstSuccess steps rest
  | .ok raw :: rest =>
    match runAttempt steps raw with
    | .ok res => some res
    | .error _ => firstSuccess steps rest

/-- The fixed retry bound `max_retries = 3`. -/
def max_retries : Nat := 3

/-- Embeds the state transition of `MAIDesktopNavigationAgent.predict`: set
the task goal if unset, run up to `max_retries` attempts (the outcome of
each external model call is an entry of `llmResults`), and either return
the sentinel `("llm client error", {"action": None})` with the steps
untouched, or append one `TrajStep` holding the guard-adjusted action and
return that action. -/
def predict (mem : TrajMemory) (instruction : Str) (executionResult : Str)
    (llmResults : List (Except Unit Str)) : (Str × JVal) × TrajMemory :=
  let mem1 := if goalTruthy mem.task_goal then mem else { mem with task_goal := some instruction }
  match firstSuccess mem1.steps (llmResults.take max_retries) with
  | none => ((s2l "llm client error", .obj [(s2l "action", .null)]), mem1)
  | some (pred, thinking, act) =>
    let step : TrajStep := {
      prediction := pred
      action := act
      conclusion := executionResult
      thought := thinking
      step_index := mem1.steps.length
      structured_action := .obj [(s2l "action_json", act)] }
    ((pred, act), { mem1 with steps := mem1.steps ++ [step] })

/-! Helper shapes used by the theorems below. -/

/-- A response text holding a reasoning block and an action block: the
action block is opened with `op` (one of the two invoke markers) and closed
with `</invoke>`, each tag on its own line as the system prompt requests. -/
def assembleText (op T B : Str) : Str :=
  thinkOpen ++ T ++ thinkClose ++ '\n' :: op ++ '\n' :: B ++ '\n' :: invokeClose

/-- Text free of the tag-opening character `<`: such text can form a
reasoning body or an action body without interfering with tag search. -/
def noLt (l : Str) : Bool := l.all (fun c => c ≠ '<')

/-- A click action at unit coordinates (x, y). -/
def clickObj (x y : ℚ) : JVal :=
  .obj [(s2l "action", .str (s2l "click")), (s2l "coordinate", .arr [.num x, .num y])]

/-- A type action carrying `text`. -/
def typeObj (t : Str) : JVal :=
  .obj [(s2l "action", .str (s2l "type")), (s2l "text", .str t)]

/-- A launch action carrying `text`. -/
def launchObj (t : Str) : JVal :=
  .obj [(s2l "action", .str (s2l "launch")), (s2l "text", .str t)]

/-- A trajectory step holding a given action (the other fields fixed). -/
def mkStep (a : JVal) : TrajStep :=
  ⟨s2l "p", a, s2l "", some (s2l "t"), 0, .obj [(s2l "action_json", a)]⟩

/-! Lemmas on substring search used to evaluate the regex model on
assembled texts. -/

theorem isPrefixOf_cons_ne {a c : Char} (pa l : Str) (h : a ≠ c) :
    (a :: pa).isPrefixOf (c :: l) = false := by
  simp [List.isPrefixOf, h]

theorem findSub_cons_ne {a c : Char} (pa l : Str) (h : a ≠ c) :
    findSub (a :: pa) (c :: l) = (findSub (a :: pa) l).map (· + 1) := by
  simp [findSub, isPrefixOf_cons_ne pa l h]

theorem noLt_mem {s : Str} (hs : noLt s = true) {c : Char} (hc : c ∈ s) : c ≠ '<' := by
  simpa using (List.all_eq_true.mp hs) c hc

theorem findSub_shift (pat : Str) {s : Str} (hpat : pat.head? = some '<') (hs : noLt s = true)
    (t : Str) : findSub pat (s ++ t) = (findSub pat t).map (· + s.length) := by
  obtain ⟨pa, rfl⟩ : ∃ pa, pat = '<' :: pa := by
    cases pat with
    | nil => simp at hpat
    | cons a pa =>
      have ha : a = '<' := by simpa using hpat
      exact ⟨pa, by rw [ha]⟩
  induction s with
  | nil =>
    cases h : findSub ('<' :: pa) t <;> simp [h]
  | cons c s ih =>
    have hc : ('<' : Char) ≠ c := fun he => noLt_mem hs (List.mem_cons_self c s) he.symm
    have hs' : noLt s = true := by
      simp only [noLt, List.all_cons, Bool.and_eq_true] at hs
      exact hs.2
    rw [List.cons_append, findSub_cons_ne _ _ hc, ih hs']
    cases h : findSub ('<' :: pa) t <;> simp [h, Nat.add_assoc, Nat.add_comm 1 s.length]

theorem isPrefixOf_append_self (p t : Str) : p.isPrefixOf (p ++ t) = true := by
  induction p with
  | nil => simp [List.isPrefixOf]
  | cons a p ih => simp [List.isPrefixOf, ih]

theorem findSub_self {c : Char} (pa t : Str) :
    findSub (c :: pa) ((c :: pa) ++ t) = some 0 := by
  simp [findSub, isPrefixOf_append_self]

theorem findMarker_cons_ne {c : Char} (l : Str) (h : c ≠ '<') :
    findMarker (c :: l) = (findMarker l).map (fun p => (p.1 + 1, p.2)) := by
  have h1 : invokeClose.isPrefixOf (c :: l) = false := isPrefixOf_cons_ne _ _ (fun he => h he.symm)
  have h2 : invokeOpen.isPrefixOf (c :: l) = false := isPrefixOf_cons_ne _ _ (fun he => h he.symm)
  simp [findMarker, h1, h2]

theorem findMarker_open (r : Str) : findMarker (invokeOpen ++ r) = some (0, 8) := by
  simp [findMarker, invokeOpen, invokeClose, List.cons_prefix_cons]

theorem findMarker_close (r : Str) : findMarker (invokeClose ++ r) = some (0, 9) := by
  simp [findMarker, invokeOpen, invokeClose, List.cons_prefix_cons]

theorem containsSub_append (pat s t : Str) (h : containsSub pat t = true) :
    containsSub pat (s ++ t) = true := by
  induction s with
  | nil => simpa
  | cons c s ih =>
    rw [List.cons_append]
    by_cases hp : pat.isPrefixOf (c :: (s ++ t)) = true
    · simp [containsSub, findSub, hp]
    · simp only [containsSub, findSub, hp, Bool.false_eq_true, if_false]
      simp only [containsSub] at ih
      cases hf : findSub pat (s ++ t) with
      | none => rw [hf] at ih; simp at ih
      | some v => simp


theorem containsSub_self {c : Char} (pa t : Str) :
    containsSub (c :: pa) ((c :: pa) ++ t) = true := by
  simp only [containsSub]
  rw [findSub_self]
  rfl

theorem findSub_refl (pat : Str) (h : pat ≠ []) : findSub pat pat = some 0 := by
  have hp : pat.isPrefixOf pat = true := by
    have h0 := isPrefixOf_append_self pat []
    rwa [List.append_nil] at h0
  cases pat with
  | nil => exact absurd rfl h
  | cons c pa => simp [findSub, hp]

theorem extractTagged_assemble (op T B : Str) (hop : op = invokeOpen ∨ op = invokeClose)
    (hT : noLt T = true) (hB : noLt B = true) :
    extractTagged (assembleText op T B) = some (T, '\n' :: (B ++ ['\n'])) := by
  have hnl : ('\n' : Char) ≠ '<' := by decide
  have hasm : assembleText op T B =
      thinkOpen ++ (T ++ (thinkClose ++
        ('\n' :: (op ++ ('\n' :: (B ++ ('\n' :: invokeClose))))))) := by
    simp [assembleText]
  have h2 : findSub thinkOpen (assembleText op T B) = some 0 := by
    rw [hasm]; exact findSub_self _ _
  have h3 : (assembleText op T B).drop (0 + thinkOpen.length) =
      T ++ (thinkClose ++ ('\n' :: (op ++ ('\n' :: (B ++ ('\n' :: invokeClose)))))) := by
    rw [hasm, Nat.zero_add]
    exact List.drop_left _ _
  have h4a : findSub thinkClose
      (thinkClose ++ ('\n' :: (op ++ ('\n' :: (B ++ ('\n' :: invokeClose)))))) = some 0 :=
    findSub_self _ _
  have h4 : findSub thinkClose
      (T ++ (thinkClose ++ ('\n' :: (op ++ ('\n' :: (B ++ ('\n' :: invokeClose))))))) =
      some T.length := by
    rw [findSub_shift thinkClose (by rfl) hT, h4a]
    simp
  have h5 : (T ++ (thinkClose ++ ('\n' :: (op ++ ('\n' :: (B ++ ('\n' :: invokeClose))))))).take
      T.length = T := List.take_left _ _
  have h6 : (T ++ (thinkClose ++ ('\n' :: (op ++ ('\n' :: (B ++ ('\n' :: invokeClose))))))).drop
      (T.length + thinkClose.length) =
      '\n' :: (op ++ ('\n' :: (B ++ ('\n' :: invokeClose)))) := by
    rw [← List.drop_drop, List.drop_left, List.drop_left]
  have h7 : findMarker ('\n' :: (op ++ ('\n' :: (B ++ ('\n' :: invokeClose))))) =
      some (1, op.length) := by
    rw [findMarker_cons_ne _ hnl]
    rcases hop with h | h <;> subst h
    · rw [findMarker_open]; rfl
    · rw [findMarker_close]; rfl
  have h8 : ('\n' :: (op ++ ('\n' :: (B ++ ('\n' :: invokeClose))))).drop (1 + op.length) =
      '\n' :: (B ++ ('\n' :: invokeClose)) := by
    rw [Nat.add_comm 1 op.length, List.drop_succ_cons, List.drop_left]
  have hre : '\n' :: (B ++ ('\n' :: invokeClose)) = (('\n' :: B) ++ ['\n']) ++ invokeClose := by
    simp
  have hsB : noLt (('\n' :: B) ++ ['\n']) = true := by
    simp only [noLt, List.all_append, List.all_cons, List.all_nil, Bool.and_eq_true] at hB ⊢
    refine ⟨⟨by decide, hB⟩, by decide, trivial⟩
  have h9 : findSub invokeClose ('\n' :: (B ++ ('\n' :: invokeClose))) = some (B.length + 2) := by
    rw [hre, findSub_shift invokeClose (by rfl) hsB, findSub_refl invokeClose (by decide)]
    simp
  have h10 : ('\n' :: (B ++ ('\n' :: invokeClose))).take (B.length + 2) =
      '\n' :: (B ++ ['\n']) := by
    rw [hre, List.take_left' (by simp)]
    simp
  simp only [extractTagged, h2, h3, h4, h5, h6, h7, h8, h9, h10]

theorem preprocess_assemble (op T B : Str) :
    preprocess (assembleText op T B) = assembleText op T B := by
  have hc : containsSub thinkClose (assembleText op T B) = true := by
    have hasm : assembleText op T B =
        (thinkOpen ++ T) ++
          (thinkClose ++ ('\n' :: (op ++ ('\n' :: (B ++ ('\n' :: invokeClose)))))) := by
      simp [assembleText]
    rw [hasm]
    exact containsSub_append _ _ _ (containsSub_self _ _)
  simp [preprocess, hc]

theorem dropWhile_cons_neg {p : Char → Bool} {c : Char} (l : Str) (h : p c = false) :
    (c :: l).dropWhile p = c :: l := by
  simp [List.dropWhile_cons, h]

theorem pyStripWs_of_ends (x : Str) (c d : Char) (hc : pyIsWs c = false)
    (hd : pyIsWs d = false) : pyStripWs (c :: (x ++ [d])) = c :: (x ++ [d]) := by
  unfold pyStripWs
  rw [dropWhile_cons_neg _ hc]
  rw [show (c :: (x ++ [d])).reverse = d :: (x.reverse ++ [c]) by simp]
  rw [dropWhile_cons_neg _ hd]
  simp

theorem stripWs_assemble (op T B : Str) :
    pyStripWs (assembleText op T B) = assembleText op T B := by
  have hasm : assembleText op T B =
      '<' :: (('t' :: 'h' :: 'i' :: 'n' :: 'k' :: 'i' :: 'n' :: 'g' :: '>' ::
        (T ++ (thinkClose ++ ('\n' :: (op ++ ('\n' :: (B ++ ('\n' ::
          ('<' :: '/' :: 'i' :: 'n' :: 'v' :: 'o' :: 'k' :: 'e' :: []))))))))) ++ ['>']) := by
    simp [assembleText, thinkOpen, invokeClose, List.append_assoc]
  rw [hasm, pyStripWs_of_ends _ _ _ (by decide) (by decide)]

/-! Lemmas evaluating the duplicate-action guard on the action shapes the
protocol produces. -/

theorem jeq_eq_of_str {x : JVal} {s : Str} (h : jeq x (.str s) = true) : x = .str s := by
  cases x <;> simp_all [jeq]

theorem guard_click_eq (pre : List TrajStep) (st : TrajStep) (lx ly cx cy : ℚ)
    (hst : st.action = clickObj lx ly) (th : Option Str) (pred : Str) :
    applyGuard (pre ++ [st]) th (clickObj cx cy) pred =
      .ok (if (lx - cx) ^ 2 + (ly - cy) ^ 2 < (3/100) ^ 2
           then (substPrediction th, waitAction)
           else (pred, clickObj cx cy)) := by
  simp only [applyGuard, List.getLast?_concat, hst]
  simp +decide [checkDuplicate, pyGet, objGet?, pyTruthy, jeq, clickObj, pyLen, toNum,
    List.find?, bind, Except.bind, pure, Except.pure]
  split <;> rfl

theorem guard_type_eq (pre : List TrajStep) (st : TrajStep) (t1 t2 : Str)
    (hst : st.action = typeObj t1) (th : Option Str) (pred : Str) :
    applyGuard (pre ++ [st]) th (typeObj t2) pred =
      .ok (if t1 = t2 ∧ t1 ≠ []
           then (substPrediction th, waitAction)
           else (pred, typeObj t2)) := by
  simp only [applyGuard, List.getLast?_concat, hst]
  simp +decide [checkDuplicate, pyGet, objGet?, pyTruthy, jeq, typeObj, pyLen, toNum,
    List.find?, bind, Except.bind, pure, Except.pure]
  split <;> rfl

theorem guard_launch_eq (pre : List TrajStep) (st : TrajStep) (t1 t2 : Str)
    (hst : st.action = launchObj t1) (th : Option Str) (pred : Str) :
    applyGuard (pre ++ [st]) th (launchObj t2) pred =
      .ok (if pyLower t1 = pyLower t2
           then (substPrediction th, waitAction)
           else (pred, launchObj t2)) := by
  simp only [applyGuard, List.getLast?_concat, hst]
  simp +decide [checkDuplicate, pyGet, objGet?, pyTruthy, jeq, launchObj, pyLen, toNum,
    List.find?, bind, Except.bind, pure, Except.pure]
  split <;> rfl

theorem guard_cross_eq (pre : List TrajStep) (st : TrajStep) (a b : JVal)
    (kvs1 kvs2 : List (Str × JVal))
    (hst : st.action = .obj ((s2l "action", a) :: kvs1)) (hne : jeq b a = false)
    (th : Option Str) (pred : Str) :
    applyGuard (pre ++ [st]) th (.obj ((s2l "action", b) :: kvs2)) pred =
      .ok (pred, .obj ((s2l "action", b) :: kvs2)) := by
  simp only [applyGuard, List.getLast?_concat, hst]
  simp +decide [pyGet, objGet?, pyTruthy, List.find?, bind, Except.bind, pure,
    Except.pure, hne]

theorem guard_other_eq (pre : List TrajStep) (st : TrajStep) (d : Str)
    (kvs1 kvs2 : List (Str × JVal))
    (hst : st.action = .obj ((s2l "action", .str d) :: kvs1))
    (h1 : d ≠ s2l "click") (h2 : d ≠ s2l "type") (h3 : d ≠ s2l "launch")
    (th : Option Str) (pred : Str) :
    applyGuard (pre ++ [st]) th (.obj ((s2l "action", .str d) :: kvs2)) pred =
      .ok (pred, .obj ((s2l "action", .str d) :: kvs2)) := by
  simp only [applyGuard, List.getLast?_concat, hst]
  simp +decide [checkDuplicate, pyGet, objGet?, pyTruthy, jeq, List.find?, bind,
    Except.bind, pure, Except.pure, h1, h2, h3]

theorem guard_wait_eq (pre : List TrajStep) (st : TrajStep) (kvs : List (Str × JVal))
    (hst : st.action = waitAction) (th : Option Str) (pred : Str) :
    applyGuard (pre ++ [st]) th (.obj kvs) pred = .ok (pred, .obj kvs) := by
  simp only [applyGuard, List.getLast?_concat, hst]
  simp +decide [checkDuplicate, pyGet, objGet?, pyTruthy, waitAction, List.find?,
    bind, Except.bind, pure, Except.pure]
  intro hx
  rw [jeq_eq_of_str hx]
  simp +decide [jeq]

/-! Lemmas on the prediction cycle and the coordinate codec. -/

theorem predict_fail_eq (mem : TrajMemory) (instr e : Str) (rs : List (Except Unit Str))
    (h : firstSuccess mem.steps (rs.take max_retries) = none) :
    predict mem instr e rs =
      ((s2l "llm client error", .obj [(s2l "action", JVal.null)]),
       ⟨if goalTruthy mem.task_goal then mem.task_goal else some instr, mem.steps⟩) := by
  obtain ⟨g0, s0⟩ := mem
  by_cases hg : goalTruthy g0 <;>
    simp_all [predict]

theorem predict_success_eq (mem : TrajMemory) (instr e : Str) (rs : List (Except Unit Str))
    (p : Str) (th : Option Str) (a : JVal)
    (h : firstSuccess mem.steps (rs.take max_retries) = some (p, th, a)) :
    predict mem instr e rs =
      ((p, a),
       ⟨if goalTruthy mem.task_goal then mem.task_goal else some instr,
        mem.steps ++ [⟨p, a, e, th, mem.steps.length, .obj [(s2l "action_json", a)]⟩]⟩) := by
  obtain ⟨g0, s0⟩ := mem
  by_cases hg : goalTruthy g0 <;>
    simp_all [predict]

theorem applyGuard_ok_cases (steps : List TrajStep) (th : Option Str) (actionJson : JVal)
    (pred : Str) (p' : Str) (a' : JVal) (h : applyGuard steps th actionJson pred = .ok (p', a')) :
    (p' = pred ∧ a' = actionJson) ∨ (p' = substPrediction th ∧ a' = waitAction) := by
  unfold applyGuard at h
  cases hl : steps.getLast? with
  | none => rw [hl] at h; simp [pure, Except.pure] at h; exact Or.inl ⟨h.1.symm, h.2.symm⟩
  | some lastStep =>
    rw [hl] at h
    simp only [bind, Except.bind] at h
    cases hg : pyGet actionJson (s2l "action") (.str []) with
    | error err => rw [hg] at h; simp at h
    | ok ctype =>
      rw [hg] at h
      by_cases ht : pyTruthy lastStep.action = true
      · simp only [ht, if_true] at h
        cases hg2 : pyGet lastStep.action (s2l "action") (.str []) with
        | error err => rw [hg2] at h; simp at h
        | ok ltype =>
          rw [hg2] at h
          by_cases hj : jeq ctype ltype = true
          · simp only [hj, if_true] at h
            cases hd : checkDuplicate lastStep.action actionJson ctype with
            | error err => rw [hd] at h; simp at h
            | ok b =>
              rw [hd] at h
              cases b
              · simp [pure, Except.pure] at h; exact Or.inl ⟨h.1.symm, h.2.symm⟩
              · simp [pure, Except.pure] at h; exact Or.inr ⟨h.1.symm, h.2.symm⟩
          · simp only [hj, if_false] at h
            simp [pure, Except.pure] at h; exact Or.inl ⟨h.1.symm, h.2.symm⟩
      · simp only [ht, if_false] at h
        simp [pure, Except.pure] at h; exact Or.inl ⟨h.1.symm, h.2.symm⟩

theorem normalizeCoordField_pair (a : JVal) (kvs : List (Str × JVal)) (px py : ℚ) :
    normalizeCoordField
      (.obj ((s2l "action", a) :: (s2l "coordinate", .arr [.num px, .num py]) :: kvs))
      (s2l "coordinate") =
    .ok (.obj ((s2l "action", a) ::
      (s2l "coordinate", .arr [.num (normPair px py).1, .num (normPair px py).2]) :: kvs)) := by
  simp +decide [normalizeCoordField, pyContainsKey, objGet?, objSet, coordsToPair, pyLen,
    toNum, List.find?, List.any, bind, Except.bind, pure, Except.pure]

theorem normalizeCoordField_box (a : JVal) (kvs : List (Str × JVal)) (x1 y1 x2 y2 : ℚ) :
    normalizeCoordField
      (.obj ((s2l "action", a) ::
        (s2l "coordinate", .arr [.num x1, .num y1, .num x2, .num y2]) :: kvs))
      (s2l "coordinate") =
    normalizeCoordField
      (.obj ((s2l "action", a) ::
        (s2l "coordinate", .arr [.num ((x1 + x2)/2), .num ((y1 + y2)/2)]) :: kvs))
      (s2l "coordinate") := by
  simp +decide [normalizeCoordField, pyContainsKey, objGet?, objSet, coordsToPair, pyLen,
    toNum, List.find?, List.any, bind, Except.bind, pure, Except.pure]

theorem normalizeCoordField_arity (a : JVal) (kvs : List (Str × JVal)) (l : List JVal)
    (h2 : l.length ≠ 2) (h4 : l.length ≠ 4) :
    normalizeCoordField
      (.obj ((s2l "action", a) :: (s2l "coordinate", .arr l) :: kvs)) (s2l "coordinate") =
    .error (.valueError (s2l "Invalid coordinate format: expected 2 or 4 values")) := by
  simp +decide [normalizeCoordField, pyContainsKey, objGet?, coordsToPair, pyLen,
    toNum, List.find?, List.any, bind, Except.bind, pure, Except.pure, h2, h4]

theorem floor_scale_close (x : ℚ) : |((⌊x * 999⌋ : ℤ) : ℚ) / 999 - x| ≤ 1 / 999 := by
  have h1 : ((⌊x * 999⌋ : ℤ) : ℚ) ≤ x * 999 := Int.floor_le _
  have h2 : x * 999 - 1 < ((⌊x * 999⌋ : ℤ) : ℚ) := Int.sub_one_lt_floor _
  have key : |((⌊x * 999⌋ : ℤ) : ℚ) - x * 999| ≤ 1 := by
    rw [abs_le]
    constructor <;> linarith
  have heq : ((⌊x * 999⌋ : ℤ) : ℚ) / 999 - x = (((⌊x * 999⌋ : ℤ) : ℚ) - x * 999) / 999 := by
    ring
  rw [heq, abs_div, show |(999 : ℚ)| = 999 from by norm_num]
  exact (div_le_div_iff_of_pos_right (by norm_num)).mpr key

/-! The claims. -/

/-- C1 (counterexample to the claim as stated): a cycle in which all 3
attempts fail does return the sentinel `("llm client error", {"action": None})`
and appends no step, but it does NOT leave the Trajectory Store unchanged:
at an unset task goal, the failed cycle still writes the goal (set before
the retry loop), so the store differs from its pre-cycle state. -/
theorem C1_counterexample :
    predict ⟨none, []⟩ (s2l "open the browser") [] [.error (), .error (), .error ()] =
      ((s2l "llm client error", .obj [(s2l "action", JVal.null)]),
       ⟨some (s2l "open the browser"), []⟩) ∧
    TrajMemory.task_goal ⟨some (s2l "open the browser"), []⟩ ≠
      TrajMemory.task_goal (⟨none, []⟩ : TrajMemory) := by
  exact ⟨rfl, by simp⟩

/-- C1 (amended): when all retry attempts of a cycle fail, `predict` returns
the sentinel result with a null action and leaves the step list unchanged;
the task goal, however, is set to the instruction at cycle start if it was
previously unset (Python-falsy), and is kept otherwise. -/
theorem C1_retry_exhaustion (mem : TrajMemory) (instr e : Str)
    (rs : List (Except Unit Str))
    (h : firstSuccess mem.steps (rs.take max_retries) = none) :
    predict mem instr e rs =
      ((s2l "llm client error", .obj [(s2l "action", JVal.null)]),
       ⟨if goalTruthy mem.task_goal then mem.task_goal else some instr, mem.steps⟩) :=
  predict_fail_eq mem instr e rs h

/-- C1 witness: the amended theorem evaluated on a concrete store with a set
goal and three failing attempts. -/
theorem C1_retry_exhaustion_witness :
    predict ⟨some (s2l "g"), []⟩ (s2l "i") [] [.error (), .error (), .error ()] =
      ((s2l "llm client error", .obj [(s2l "action", JVal.null)]),
       ⟨if goalTruthy (some (s2l "g")) then some (s2l "g") else some (s2l "i"), []⟩) :=
  C1_retry_exhaustion ⟨some (s2l "g"), []⟩ (s2l "i") [] [.error (), .error (), .error ()] rfl

/-- C2 (counterexample to the claim as stated): the parser DOES raise on a
parse failure — a malformed action-block body makes `parse_tagged_text`
raise `ValueError` (no reasoning is returned), and on a text with no block
at all `parse_action_to_structure_output` raises a `TypeError` (membership
test on the `None` tool_call) instead of returning null fields. -/
theorem C2_counterexample :
    parse_tagged_text (s2l "<thinking>ok</thinking><invoke>notjson</invoke>") =
      .error (.valueError (s2l "Invalid JSON in tool_call")) ∧
    parse_action_to_structure_output (s2l "no tags at all") =
      .error (.typeError (s2l "argument of type NoneType is not iterable")) :=
  ⟨rfl, rfl⟩

/-- C2 (amended): parse failures raise rather than return null fields — a
malformed (non-empty) action body raises `ValueError` from
`parse_tagged_text`; when no block matches, `parse_tagged_text` itself
returns both fields as `None` without raising, but
`parse_action_to_structure_output` then raises `TypeError`; `predict`
catches any such exception as one failed (recoverable) attempt. -/
theorem C2_parse_failure_raises :
    (∀ T B : Str, noLt T = true → noLt B = true →
      pyStrip2 ('\n' :: (B ++ ['\n'])) ≠ [] →
      jparse (pyStrip2 ('\n' :: (B ++ ['\n']))) = none →
      parse_tagged_text (assembleText invokeOpen T B) =
        .error (.valueError (s2l "Invalid JSON in tool_call"))) ∧
    (∀ text : Str, extractTagged (preprocess text) = none →
      parse_tagged_text text = .ok ⟨none, .pynone⟩) ∧
    (∀ text : Str, extractTagged (preprocess (pyStripWs text)) = none →
      parse_action_to_structure_output text =
        .error (.typeError (s2l "argument of type NoneType is not iterable"))) := by
  refine ⟨?_, ?_, ?_⟩
  · intro T B hT hB hne hj
    simp only [parse_tagged_text]
    rw [preprocess_assemble, extractTagged_assemble _ _ _ (Or.inl rfl) hT hB]
    simp [hne, hj]
  · intro text h
    simp only [parse_tagged_text]
    rw [h]
  · intro text h
    simp only [parse_action_to_structure_output, parse_tagged_text]
    rw [h]
    rfl

/-- C2 witness: the amended theorem evaluated on a concrete malformed body
and on a tagless text. -/
theorem C2_parse_failure_raises_witness :
    parse_tagged_text (assembleText invokeOpen (s2l "ok") (s2l "notjson")) =
      .error (.valueError (s2l "Invalid JSON in tool_call")) ∧
    parse_action_to_structure_output (s2l "no tags at all") =
      .error (.typeError (s2l "argument of type NoneType is not iterable")) :=
  ⟨C2_parse_failure_raises.1 (s2l "ok") (s2l "notjson") (by decide) (by decide)
      (by decide) rfl,
   C2_parse_failure_raises.2.2 (s2l "no tags at all") rfl⟩

/-- C3 (counterexample to the claim as stated): the value 1.2 has magnitude
at most 1.5, so the claim says it is left unchanged; the parser instead
divides the whole pair by 999 because one component exceeds 1 — the pair
`[1.2, 0.5]` parses to `[1.2/999, 0.5/999]`, not to `[1.2, 0.5]`. -/
theorem C3_counterexample :
    parse_action_to_structure_output
      (s2l "<thinking>ok</thinking><invoke>\x7b\"action\":\"click\",\"coordinate\":[1.2,0.5]\x7d</invoke>") =
      .ok (some (s2l "ok"),
        .obj [(s2l "action", .str (s2l "click")),
              (s2l "coordinate", .arr [.num (2/1665), .num (1/1998)])]) ∧
    (2 : ℚ)/1665 ≠ 6/5 ∧ (1 : ℚ)/1998 ≠ 1/2 := by
  refine ⟨rfl, by norm_num, by norm_num⟩

/-- C3 (amended): the parser's codec is applied to the collapsed pair, not
per value — the pair is divided by `SCALE_FACTOR` exactly when either
component exceeds 1 (both components divided together) and kept otherwise,
and it never raises on a numeric pair; the 1.5 threshold appears only in
`convert_coord` (rendering a stored step back into model space), where a
pair is scaled up by `SCALE_FACTOR` exactly when both components are below
1.5 and truncated to ints otherwise. -/
theorem C3_codec_thresholds :
    (∀ px py : ℚ, (1 < px ∨ 1 < py) →
      normPair px py = (px / SCALE_FACTOR, py / SCALE_FACTOR)) ∧
    (∀ px py : ℚ, px ≤ 1 → py ≤ 1 → normPair px py = (px, py)) ∧
    (∀ (a : JVal) (kvs : List (Str × JVal)) (px py : ℚ),
      normalizeCoordField
        (.obj ((s2l "action", a) :: (s2l "coordinate", .arr [.num px, .num py]) :: kvs))
        (s2l "coordinate") =
      .ok (.obj ((s2l "action", a) ::
        (s2l "coordinate", .arr [.num (normPair px py).1, .num (normPair px py).2]) :: kvs))) ∧
    (∀ x y : ℚ, x < 3/2 → y < 3/2 →
      convert_coord [x, y] = [(pyInt (x * SCALE_FACTOR) : ℚ), (pyInt (y * SCALE_FACTOR) : ℚ)]) ∧
    (∀ x y : ℚ, ¬(x < 3/2 ∧ y < 3/2) →
      convert_coord [x, y] = [(pyInt x : ℚ), (pyInt y : ℚ)]) := by
  refine ⟨?_, ?_, ?_, ?_, ?_⟩
  · intro px py h
    simp only [normPair]
    rw [if_pos h]
  · intro px py h1 h2
    simp only [normPair]
    rw [if_neg]
    push_neg
    exact ⟨h1, h2⟩
  · exact normalizeCoordField_pair
  · intro x y h1 h2
    simp only [convert_coord]
    rw [if_pos ⟨h1, h2⟩]
  · intro x y h
    simp only [convert_coord]
    rw [if_neg h]

/-- C3 witness: the amended theorem evaluated at concrete pairs on both
sides of both thresholds. -/
theorem C3_codec_thresholds_witness :
    normPair (6/5) (1/2) = ((6/5) / SCALE_FACTOR, (1/2) / SCALE_FACTOR) ∧
    normPair (1/2) (1/2) = (1/2, 1/2) ∧
    convert_coord [(1 : ℚ)/2, 1/2] =
      [(pyInt ((1/2) * SCALE_FACTOR) : ℚ), (pyInt ((1/2) * SCALE_FACTOR) : ℚ)] ∧
    convert_coord [(2 : ℚ), 3] = [(pyInt 2 : ℚ), (pyInt 3 : ℚ)] :=
  ⟨C3_codec_thresholds.1 (6/5) (1/2) (Or.inl (by norm_num)),
   C3_codec_thresholds.2.1 (1/2) (1/2) (by norm_num) (by norm_num),
   C3_codec_thresholds.2.2.2.1 (1/2) (1/2) (by norm_num) (by norm_num),
   C3_codec_thresholds.2.2.2.2 2 3 (by norm_num)⟩

/-- C4 (counterexample to the claim as stated): at the unit pair
(0.0015, 0.0015) the rendered scaled pair is `[1, 1]`; the parser leaves a
pair whose components do not exceed 1 unchanged, so the round trip returns
1, which is not within one scale-unit (1/999) of 0.0015. -/
theorem C4_counterexample :
    convert_coord [3/2000, 3/2000] = [1, 1] ∧
    ¬ |(normPair 1 1).1 - (3 : ℚ)/2000| ≤ 1 / SCALE_FACTOR := by
  constructor
  · decide
  · decide

/-- C4 (amended): for a unit pair, rendering a stored step scales by
truncation (`int(x*999)` = the floor for nonnegative x), and whenever the
scaled pair has a component exceeding 1 — so that the parser's
normalization fires — the round trip through `normPair` recovers each
coordinate within one scale-unit 1/999; pairs so close to the origin that
both scaled components are at most 1 are passed through unnormalized and
fall outside this guarantee. -/
theorem C4_roundtrip (x y : ℚ) (hx0 : 0 ≤ x) (hx1 : x ≤ 1) (hy0 : 0 ≤ y) (hy1 : y ≤ 1) :
    convert_coord [x, y] =
      [((⌊x * SCALE_FACTOR⌋ : ℤ) : ℚ), ((⌊y * SCALE_FACTOR⌋ : ℤ) : ℚ)] ∧
    ((1 < ((⌊x * SCALE_FACTOR⌋ : ℤ) : ℚ) ∨ 1 < ((⌊y * SCALE_FACTOR⌋ : ℤ) : ℚ)) →
      |(normPair ((⌊x * SCALE_FACTOR⌋ : ℤ) : ℚ) ((⌊y * SCALE_FACTOR⌋ : ℤ) : ℚ)).1 - x| ≤
        1 / SCALE_FACTOR ∧
      |(normPair ((⌊x * SCALE_FACTOR⌋ : ℤ) : ℚ) ((⌊y * SCALE_FACTOR⌋ : ℤ) : ℚ)).2 - y| ≤
        1 / SCALE_FACTOR) := by
  constructor
  · have hx' : x < 3/2 := lt_of_le_of_lt hx1 (by norm_num)
    have hy' : y < 3/2 := lt_of_le_of_lt hy1 (by norm_num)
    simp only [convert_coord]
    rw [if_pos ⟨hx', hy'⟩]
    have px : pyInt (x * SCALE_FACTOR) = ⌊x * SCALE_FACTOR⌋ := by
      simp only [pyInt, SCALE_FACTOR]
      rw [if_pos (mul_nonneg hx0 (by norm_num))]
    have py : pyInt (y * SCALE_FACTOR) = ⌊y * SCALE_FACTOR⌋ := by
      simp only [pyInt, SCALE_FACTOR]
      rw [if_pos (mul_nonneg hy0 (by norm_num))]
    rw [px, py]
  · intro h
    simp only [normPair]
    rw [if_pos h]
    have hXF : (SCALE_FACTOR : ℚ) = 999 := rfl
    constructor
    · simpa [hXF] using floor_scale_close x
    · simpa [hXF] using floor_scale_close y

/-- C4 witness: the amended theorem evaluated at the unit pair (1/2, 1/4). -/
theorem C4_roundtrip_witness :
    convert_coord [1/2, 1/4] =
      [((⌊(1/2 : ℚ) * SCALE_FACTOR⌋ : ℤ) : ℚ), ((⌊(1/4 : ℚ) * SCALE_FACTOR⌋ : ℤ) : ℚ)] ∧
    |(normPair ((⌊(1/2 : ℚ) * SCALE_FACTOR⌋ : ℤ) : ℚ) ((⌊(1/4 : ℚ) * SCALE_FACTOR⌋ : ℤ) : ℚ)).1 -
      (1/2 : ℚ)| ≤ 1 / SCALE_FACTOR :=
  ⟨(C4_roundtrip (1/2) (1/4) (by norm_num) (by norm_num) (by norm_num) (by norm_num)).1,
   ((C4_roundtrip (1/2) (1/4) (by norm_num) (by norm_num) (by norm_num) (by norm_num)).2
     (Or.inl (by decide))).1⟩

/-- C5: the duplicate guard on two consecutive click actions — when the
squared Euclidean distance between the unit coordinate pairs is below
0.03² (equivalently, distance below 0.03), the candidate is replaced by
the fixed `wait` action of duration 2.0 and the prediction text is
annotated (`substPrediction`); at distance 0.03 or more nothing is
substituted; either way the guard returns `.ok`, never aborting the
cycle. -/
theorem C5_click_duplicate_guard (pre : List TrajStep) (st : TrajStep) (lx ly cx cy : ℚ)
    (hst : st.action = clickObj lx ly) (th : Option Str) (pred : Str) :
    applyGuard (pre ++ [st]) th (clickObj cx cy) pred =
      .ok (if (lx - cx) ^ 2 + (ly - cy) ^ 2 < (3/100) ^ 2
           then (substPrediction th, waitAction)
           else (pred, clickObj cx cy)) :=
  guard_click_eq pre st lx ly cx cy hst th pred

/-- C5 witness: consecutive clicks at (0.50, 0.50) then (0.51, 0.51)
substitute a wait action; at (0.50, 0.50) then (0.60, 0.60) nothing is
substituted. -/
theorem C5_click_duplicate_guard_witness :
    applyGuard ([] ++ [mkStep (clickObj (1/2) (1/2))]) (some (s2l "t"))
        (clickObj (51/100) (51/100)) (s2l "p") =
      .ok (substPrediction (some (s2l "t")), waitAction) ∧
    applyGuard ([] ++ [mkStep (clickObj (1/2) (1/2))]) (some (s2l "t"))
        (clickObj (3/5) (3/5)) (s2l "p") =
      .ok (s2l "p", clickObj (3/5) (3/5)) := by
  constructor
  · rw [C5_click_duplicate_guard [] _ (1/2) (1/2) (51/100) (51/100) rfl, if_pos (by norm_num)]
  · rw [C5_click_duplicate_guard [] _ (1/2) (1/2) (3/5) (3/5) rfl, if_neg (by norm_num)]

/-- C6: the duplicate guard flags a `type` action exactly when the two text
fields are equal and non-empty, a `launch` action exactly when the
lowercased texts are equal, never flags a shared discriminator other than
click/type/launch, and never substitutes when the two discriminators
differ. -/
theorem C6_duplicate_rules (pre : List TrajStep) (st : TrajStep) (th : Option Str)
    (pred : Str) :
    (∀ t1 t2 : Str, st.action = typeObj t1 →
      applyGuard (pre ++ [st]) th (typeObj t2) pred =
        .ok (if t1 = t2 ∧ t1 ≠ [] then (substPrediction th, waitAction)
             else (pred, typeObj t2))) ∧
    (∀ t1 t2 : Str, st.action = launchObj t1 →
      applyGuard (pre ++ [st]) th (launchObj t2) pred =
        .ok (if pyLower t1 = pyLower t2 then (substPrediction th, waitAction)
             else (pred, launchObj t2))) ∧
    (∀ (d : Str) (kvs1 kvs2 : List (Str × JVal)),
      st.action = .obj ((s2l "action", .str d) :: kvs1) →
      d ≠ s2l "click" → d ≠ s2l "type" → d ≠ s2l "launch" →
      applyGuard (pre ++ [st]) th (.obj ((s2l "action", .str d) :: kvs2)) pred =
        .ok (pred, .obj ((s2l "action", .str d) :: kvs2))) ∧
    (∀ (a b : JVal) (kvs1 kvs2 : List (Str × JVal)),
      st.action = .obj ((s2l "action", a) :: kvs1) → jeq b a = false →
      applyGuard (pre ++ [st]) th (.obj ((s2l "action", b) :: kvs2)) pred =
        .ok (pred, .obj ((s2l "action", b) :: kvs2))) :=
  ⟨fun t1 t2 h => guard_type_eq pre st t1 t2 h th pred,
   fun t1 t2 h => guard_launch_eq pre st t1 t2 h th pred,
   fun d kvs1 kvs2 h h1 h2 h3 => guard_other_eq pre st d kvs1 kvs2 h h1 h2 h3 th pred,
   fun a b kvs1 kvs2 h hne => guard_cross_eq pre st a b kvs1 kvs2 h hne th pred⟩

/-- C6 witness: equal non-empty type texts substitute; case-insensitively
equal launch targets substitute; two identical scroll actions never do;
a type candidate after a click step never does. -/
theorem C6_duplicate_rules_witness :
    applyGuard ([] ++ [mkStep (typeObj (s2l "hello"))]) none (typeObj (s2l "hello"))
        (s2l "p") = .ok (substPrediction none, waitAction) ∧
    applyGuard ([] ++ [mkStep (launchObj (s2l "Chrome"))]) none (launchObj (s2l "chrome"))
        (s2l "p") = .ok (substPrediction none, waitAction) ∧
    applyGuard ([] ++ [mkStep (.obj [(s2l "action", .str (s2l "scroll"))])]) none
        (.obj [(s2l "action", .str (s2l "scroll"))]) (s2l "p") =
      .ok (s2l "p", .obj [(s2l "action", .str (s2l "scroll"))]) ∧
    applyGuard ([] ++ [mkStep (.obj [(s2l "action", .str (s2l "click"))])]) none
        (.obj [(s2l "action", .str (s2l "type"))]) (s2l "p") =
      .ok (s2l "p", .obj [(s2l "action", .str (s2l "type"))]) := by
  refine ⟨?_, ?_, ?_, ?_⟩
  · rw [(C6_duplicate_rules [] _ none (s2l "p")).1 (s2l "hello") (s2l "hello") rfl,
      if_pos (by decide)]
  · rw [(C6_duplicate_rules [] _ none (s2l "p")).2.1 (s2l "Chrome") (s2l "chrome") rfl,
      if_pos (by decide)]
  · exact (C6_duplicate_rules [] _ none (s2l "p")).2.2.1 (s2l "scroll") [] [] rfl
      (by decide) (by decide) (by decide)
  · exact (C6_duplicate_rules [] _ none (s2l "p")).2.2.2 (.str (s2l "click"))
      (.str (s2l "type")) [] [] rfl (by decide)

/-- C7: a 4-element coordinate box is collapsed to its center pair before
the codec, so normalizing an action with box `[x1,y1,x2,y2]` equals
normalizing the same action with pair `[(x1+x2)/2,(y1+y2)/2]` — concretely
`[10,20,30,40]` parses to the same output as `[20,30]` — and a coordinate
list whose length is neither 2 nor 4 is rejected with `ValueError`. -/
theorem C7_box_collapse :
    (∀ (a : JVal) (kvs : List (Str × JVal)) (x1 y1 x2 y2 : ℚ),
      normalizeCoordField
        (.obj ((s2l "action", a) ::
          (s2l "coordinate", .arr [.num x1, .num y1, .num x2, .num y2]) :: kvs))
        (s2l "coordinate") =
      normalizeCoordField
        (.obj ((s2l "action", a) ::
          (s2l "coordinate", .arr [.num ((x1 + x2)/2), .num ((y1 + y2)/2)]) :: kvs))
        (s2l "coordinate")) ∧
    parse_action_to_structure_output
      (s2l "<thinking>t</thinking><invoke>\x7b\"action\":\"click\",\"coordinate\":[10,20,30,40]\x7d</invoke>") =
    parse_action_to_structure_output
      (s2l "<thinking>t</thinking><invoke>\x7b\"action\":\"click\",\"coordinate\":[20,30]\x7d</invoke>") ∧
    (∀ (a : JVal) (kvs : List (Str × JVal)) (l : List JVal),
      l.length ≠ 2 → l.length ≠ 4 →
      normalizeCoordField
        (.obj ((s2l "action", a) :: (s2l "coordinate", .arr l) :: kvs)) (s2l "coordinate") =
      .error (.valueError (s2l "Invalid coordinate format: expected 2 or 4 values"))) :=
  ⟨normalizeCoordField_box, rfl, normalizeCoordField_arity⟩

/-- C7 witness: the collapse equation evaluated at the box (10,20,30,40)
and the arity rejection at a 3-element list. -/
theorem C7_box_collapse_witness :
    normalizeCoordField
      (.obj [(s2l "action", .str (s2l "click")),
        (s2l "coordinate", .arr [.num 10, .num 20, .num 30, .num 40])]) (s2l "coordinate") =
    normalizeCoordField
      (.obj [(s2l "action", .str (s2l "click")),
        (s2l "coordinate", .arr [.num ((10 + 30)/2), .num ((20 + 40)/2)])]) (s2l "coordinate") ∧
    normalizeCoordField
      (.obj [(s2l "action", .str (s2l "click")),
        (s2l "coordinate", .arr [.num 1, .num 2, .num 3])]) (s2l "coordinate") =
    .error (.valueError (s2l "Invalid coordinate format: expected 2 or 4 values")) :=
  ⟨C7_box_collapse.1 (.str (s2l "click")) [] 10 20 30 40,
   C7_box_collapse.2.2 (.str (s2l "click")) [] [.num 1, .num 2, .num 3]
     (by decide) (by decide)⟩

/-- C8: opening the action block with `<invoke>` or with the tolerated
`</invoke>` variant yields the same parsed output, and a wrapped tool_call
(`{"name": ..., "arguments": A}`) unwraps to the same action mapping as the
direct body `A` (for an `A` carrying an `action` key and no `arguments`
key), so both parse to identical normalized actions. -/
theorem C8_marker_and_wrapping :
    (∀ T B : Str, noLt T = true → noLt B = true →
      parse_action_to_structure_output (assembleText invokeOpen T B) =
      parse_action_to_structure_output (assembleText invokeClose T B)) ∧
    (∀ (nm : JVal) (kvs : List (Str × JVal)),
      kvs.any (fun e => e.1 = s2l "arguments") = false →
      kvs.any (fun e => e.1 = s2l "action") = true →
      extractAction (.json (.obj [(s2l "name", nm), (s2l "arguments", .obj kvs)])) =
        .ok (.obj kvs) ∧
      extractAction (.json (.obj kvs)) = .ok (.obj kvs)) := by
  constructor
  · intro T B hT hB
    have e1 : parse_tagged_text (assembleText invokeOpen T B) =
        parse_tagged_text (assembleText invokeClose T B) := by
      simp only [parse_tagged_text]
      rw [preprocess_assemble, preprocess_assemble,
        extractTagged_assemble _ _ _ (Or.inl rfl) hT hB,
        extractTagged_assemble _ _ _ (Or.inr rfl) hT hB]
    simp only [parse_action_to_structure_output]
    rw [stripWs_assemble, stripWs_assemble, e1]
  · intro nm kvs h1 h2
    constructor
    · simp +decide [extractAction, pyContainsKey, pyIndexKey, objGet?, List.find?,
        List.any, bind, Except.bind, pure, Except.pure]
    · simp [extractAction, pyContainsKey, pyIndexKey, objGet?,
        bind, Except.bind, pure, Except.pure, h1, h2]

/-- C8 witness: the marker-variant equation evaluated on a concrete
response, and the unwrapping equations on a concrete wait action. -/
theorem C8_marker_and_wrapping_witness :
    parse_action_to_structure_output
      (assembleText invokeOpen (s2l "ok") (s2l "\x7b\"action\":\"wait\",\"duration\":2.0\x7d")) =
    parse_action_to_structure_output
      (assembleText invokeClose (s2l "ok") (s2l "\x7b\"action\":\"wait\",\"duration\":2.0\x7d")) ∧
    extractAction (.json (.obj [(s2l "name", .str (s2l "desktop_use")),
        (s2l "arguments", .obj [(s2l "action", .str (s2l "wait")), (s2l "duration", .num 2)])])) =
      .ok (.obj [(s2l "action", .str (s2l "wait")), (s2l "duration", .num 2)]) ∧
    extractAction (.json (.obj [(s2l "action", .str (s2l "wait")), (s2l "duration", .num 2)])) =
      .ok (.obj [(s2l "action", .str (s2l "wait")), (s2l "duration", .num 2)]) :=
  ⟨C8_marker_and_wrapping.1 (s2l "ok") (s2l "\x7b\"action\":\"wait\",\"duration\":2.0\x7d")
      (by decide) (by decide),
   (C8_marker_and_wrapping.2 (.str (s2l "desktop_use"))
      [(s2l "action", .str (s2l "wait")), (s2l "duration", .num 2)]
      (by decide) (by decide)).1,
   (C8_marker_and_wrapping.2 (.str (s2l "desktop_use"))
      [(s2l "action", .str (s2l "wait")), (s2l "duration", .num 2)]
      (by decide) (by decide)).2⟩

/-- C9: a successful prediction cycle appends exactly one step whose stored
action is the returned, guard-adjusted action; the guard's only two
outcomes are the unchanged candidate or the wait substitution, and when the
preceding step's action is the substituted wait action the guard never
substitutes again (wait is not among the inspected discriminators), so two
consecutive successful cycles cannot both substitute. -/
theorem C9_persisted_guard_adjusted :
    (∀ (mem : TrajMemory) (instr e : Str) (rs : List (Except Unit Str))
        (p : Str) (th : Option Str) (a : JVal),
      firstSuccess mem.steps (rs.take max_retries) = some (p, th, a) →
      predict mem instr e rs =
        ((p, a),
         ⟨if goalTruthy mem.task_goal then mem.task_goal else some instr,
          mem.steps ++ [⟨p, a, e, th, mem.steps.length, .obj [(s2l "action_json", a)]⟩]⟩)) ∧
    (∀ (steps : List TrajStep) (th : Option Str) (actionJson : JVal) (pred p' : Str)
        (a' : JVal),
      applyGuard steps th actionJson pred = .ok (p', a') →
      (p' = pred ∧ a' = actionJson) ∨ (p' = substPrediction th ∧ a' = waitAction)) ∧
    (∀ (pre : List TrajStep) (st : TrajStep) (kvs : List (Str × JVal)) (th : Option Str)
        (pred : Str),
      st.action = waitAction →
      applyGuard (pre ++ [st]) th (.obj kvs) pred = .ok (pred, .obj kvs)) :=
  ⟨predict_success_eq,
   fun steps th actionJson pred p' a' h => applyGuard_ok_cases steps th actionJson pred p' a' h,
   fun pre st kvs th pred h => guard_wait_eq pre st kvs h th pred⟩

/-- C9 witness: a concrete successful cycle appends the guard-adjusted wait
action, and the guard with a wait action as the previous step leaves a wait
candidate untouched. -/
theorem C9_persisted_guard_adjusted_witness :
    predict ⟨some (s2l "g"), []⟩ (s2l "i") (s2l "done")
        [.ok (s2l "<thinking>ok</thinking><invoke>\x7b\"action\":\"wait\",\"duration\":2.0\x7d</invoke>")] =
      ((s2l "<thinking>ok</thinking><invoke>\x7b\"action\":\"wait\",\"duration\":2.0\x7d</invoke>",
        waitAction),
       ⟨if goalTruthy (some (s2l "g")) then some (s2l "g") else some (s2l "i"),
        [] ++ [⟨s2l "<thinking>ok</thinking><invoke>\x7b\"action\":\"wait\",\"duration\":2.0\x7d</invoke>",
          waitAction, s2l "done", some (s2l "ok"), 0, .obj [(s2l "action_json", waitAction)]⟩]⟩) ∧
    applyGuard ([] ++ [mkStep waitAction]) none
        (.obj [(s2l "action", .str (s2l "wait")), (s2l "duration", .num 2)]) (s2l "p") =
      .ok (s2l "p", .obj [(s2l "action", .str (s2l "wait")), (s2l "duration", .num 2)]) :=
  ⟨C9_persisted_guard_adjusted.1 ⟨some (s2l "g"), []⟩ (s2l "i") (s2l "done")
      [.ok (s2l "<thinking>ok</thinking><invoke>\x7b\"action\":\"wait\",\"duration\":2.0\x7d</invoke>")]
      _ (some (s2l "ok")) waitAction rfl,
   C9_persisted_guard_adjusted.2.2 [] (mkStep waitAction)
      [(s2l "action", .str (s2l "wait")), (s2l "duration", .num 2)] none (s2l "p") rfl⟩

/-- C10: on a matched response both regex groups pass through
`.strip().strip('"')` (`pyStrip2`: whitespace first, then all leading and
trailing double quotes) before any JSON parsing — the returned reasoning is
the doubly-stripped group 1, and the JSON document handed to the decoder is
the doubly-stripped group 2, so a quoted reasoning loses its quotes and a
JSON body wrapped in stray quotes still parses. -/
theorem C10_group_stripping (T B : Str) (hT : noLt T = true) (hB : noLt B = true)
    (v : JVal) (hne : pyStrip2 ('\n' :: (B ++ ['\n'])) ≠ [])
    (hj : jparse (pyStrip2 ('\n' :: (B ++ ['\n']))) = some v) :
    parse_tagged_text (assembleText invokeOpen T B) =
      .ok ⟨some (pyStrip2 T), .json v⟩ := by
  simp only [parse_tagged_text]
  rw [preprocess_assemble, extractTagged_assemble _ _ _ (Or.inl rfl) hT hB]
  simp [hne, hj]

/-- C10 witness: the reasoning `"ok"` (with quotes and spaces) is returned
as `ok`, and an action body wrapped in stray double quotes still parses. -/
theorem C10_group_stripping_witness :
    parse_tagged_text (assembleText invokeOpen (s2l " \"ok\" ")
        (s2l "\"\x7b\"action\":\"wait\",\"duration\":2.0\x7d\"")) =
      .ok ⟨some (s2l "ok"),
        .json (.obj [(s2l "action", .str (s2l "wait")), (s2l "duration", .num 2)])⟩ :=
  C10_group_stripping (s2l " \"ok\" ") (s2l "\"\x7b\"action\":\"wait\",\"duration\":2.0\x7d\"")
    (by decide) (by decide)
    (.obj [(s2l "action", .str (s2l "wait")), (s2l "duration", .num 2)]) (by decide) rfl

end MAIUI
